import Mathlib

/-!
Verification development for the caddy Cloud-Datastore TLS storage plugin
(package `tlsclouddatastore`).

The development shallowly embeds the two components with algorithmic
content:

* the encrypted record codec (`toBytes` / `fromBytes` built on
  `encrypt` / `decrypt`), with the external JSON serializer and the
  AES-GCM cipher abstracted as parameters carrying exactly the
  properties the Go standard library guarantees; and

* the record store plus per-domain lock manager
  (`StoreSite`, `TryLock`, the background poll loop body, `Unlock`,
  `MostRecentUserEmail`), embedded as explicit state-passing functions
  over a `State` holding the remote site documents and the process-local
  waiter table (`domainLocks`), with remote get/put failures made
  explicit in the state and timestamps modelled as natural-number
  nanosecond instants (the Go zero `time.Time` is instant `0`, and
  `time.Until(t).Nanoseconds() > 0` at instant `now` is `now < t`).
-/

/-! ## Encrypted record codec (`toBytes` / `fromBytes`) -/

/-- Error classes surfaced by the codec: `decryptionError` models the
"Invalid contents" / "Decryption failure" returns of `decrypt`, and
`formatError` models the "Invalid data format" / "Unable to unmarshal
result" returns of `fromBytes`. -/
inductive CodecErr where
  | decryptionError
  | formatError
deriving DecidableEq, Repr

/-- `aes.BlockSize` from the Go standard library. -/
def aesBlockSize : Nat := 16

/-- The literal value `valuePrefix = "caddy-tlsconsul"` as bytes. -/
def valuePfx : List Nat := "caddy-tlsconsul".toList.map Char.toNat

/-- An authenticated cipher (AES-GCM for a fixed key), abstracted:
`sealFn nonce plain` is `gcm.Seal(nil, nonce, plain, nil)` and
`opn nonce cipherBytes` is `gcm.Open(nil, nonce, cipherBytes, nil)`
(`none` when authentication fails). -/
structure AEAD where
  nonceSize : Nat
  sealFn : List Nat → List Nat → List Nat
  opn : List Nat → List Nat → Option (List Nat)

/-- The codec's configuration: the `aesKey` field of `CloudDsStorage`
together with the cipher built from it. -/
structure Codec where
  aesKey : List Nat
  aead : AEAD

/-- The external JSON serializer for a record type `R`
(`json.Marshal` / `json.Unmarshal`); `unmarshal` returns `none` when the
bytes do not parse as `R`.  `marshal` is total because `json.Marshal`
cannot fail on the fixed struct-of-byte-slices record shapes. -/
structure Wire (R : Type) where
  marshal : R → List Nat
  unmarshal : List Nat → Option R

/-- `CloudDsStorage.encrypt`: with no key the bytes pass through
unmodified; otherwise the random nonce (made an explicit argument) is
prepended to the sealed bytes, as `gcm.Seal(nonce, nonce, bytes, nil)`
returns `nonce ++ ciphertext`. -/
def encrypt (c : Codec) (nonce bytes : List Nat) : List Nat :=
  if c.aesKey.length = 0 then bytes
  else nonce ++ c.aead.sealFn nonce bytes

/-- `CloudDsStorage.decrypt`: with no key the bytes pass through; with a
key, blobs shorter than `aes.BlockSize` are rejected, and otherwise the
first `nonceSize` bytes are split off as the nonce and the remainder is
opened. -/
def decrypt (c : Codec) (bytes : List Nat) : Except CodecErr (List Nat) :=
  if c.aesKey.length = 0 then .ok bytes
  else if bytes.length < aesBlockSize then .error .decryptionError
  else
    match c.aead.opn (bytes.take c.aead.nonceSize) (bytes.drop c.aead.nonceSize) with
    | some out => .ok out
    | none => .error .decryptionError

/-- `CloudDsStorage.toBytes`: JSON-marshal the record, prepend the
literal value marker, then encrypt the whole buffer. -/
def toBytes {R : Type} (c : Codec) (w : Wire R) (nonce : List Nat) (r : R) : List Nat :=
  encrypt c nonce (valuePfx ++ w.marshal r)

/-- `CloudDsStorage.fromBytes`: decrypt, check that the plaintext starts
with the literal value marker (`"Invalid data format"` otherwise), then
JSON-unmarshal the remainder (`"Unable to unmarshal result"` on parse
failure). -/
def fromBytes {R : Type} (c : Codec) (w : Wire R) (bytes : List Nat) : Except CodecErr R :=
  match decrypt c bytes with
  | .error e => .error e
  | .ok plain =>
    if plain.length < valuePfx.length ∨ plain.take valuePfx.length ≠ valuePfx then
      .error .formatError
    else
      match w.unmarshal (plain.drop valuePfx.length) with
      | some r => .ok r
      | none => .error .formatError

/-- `caddytls.SiteData`: opaque certificate, key and metadata bytes. -/
structure SiteData where
  Cert : List Nat
  Key : List Nat
  Meta : List Nat
deriving DecidableEq, Repr

/-- `caddytls.UserData`: opaque registration and key bytes. -/
structure UserData where
  Reg : List Nat
  Key : List Nat
deriving DecidableEq, Repr

/-! ## Record store and lock manager state -/

/-- `cdsEncryptedRecordWithLock`: the site document stored per domain —
the encoded blob, the modification instant stamped by `putSiteEntity`,
and the `Lock` lease instant (the Go zero `time.Time` is `0`). -/
structure SiteDoc where
  Value : List Nat
  Modified : Nat
  Lock : Nat
deriving DecidableEq, Repr

/-- A zero-valued `cdsEncryptedRecordWithLock`, as produced by
`new(cdsEncryptedRecordWithLock)`. -/
def zeroDoc : SiteDoc := { Value := [], Modified := 0, Lock := 0 }

/-- A `sync.WaitGroup` used as a Local Waiter: created with count `1`
(`released = false`); `Done` sets `released = true`, unblocking every
task waiting on it. -/
structure Waiter where
  released : Bool
deriving DecidableEq, Repr

/-- The combined remote and process-local state seen by the storage
facade: the remote site documents keyed by domain, the process-local
waiter table `domainLocks`, and the sets of domains whose remote get or
put currently fails (store unreachable). -/
structure State where
  sites : List (String × SiteDoc)
  domainLocks : List (String × Waiter)
  getFail : List String
  putFail : List String
deriving DecidableEq, Repr

/-- Insert-or-replace in an association list (the effect of a map
assignment `m[k] = v`). -/
def setEntry {α : Type} : List (String × α) → String → α → List (String × α)
  | [], k, v => [(k, v)]
  | (k', v') :: rest, k, v =>
    if k' = k then (k, v) :: rest else (k', v') :: setEntry rest k v

/-- Remove a key from an association list (the effect of `delete(m, k)`). -/
def delEntry {α : Type} (l : List (String × α)) (k : String) : List (String × α) :=
  l.filter (fun p => p.1 ≠ k)

/-- The two outcomes of a failed `datastore.Get`:
`noSuchEntity` is `datastore.ErrNoSuchEntity`, `storeFail` any other
error (store unreachable). -/
inductive GetErr where
  | noSuchEntity
  | storeFail
deriving DecidableEq, Repr

/-- `getSiteEntity`: read the site document for a domain, distinguishing
the not-found sentinel from other failures. -/
def getSiteEntity (st : State) (domain : String) : Except GetErr SiteDoc :=
  if st.getFail.contains domain then .error .storeFail
  else
    match st.sites.lookup domain with
    | some r => .ok r
    | none => .error .noSuchEntity

/-- `putSiteEntity`: stamp `Modified` with the current instant and
upsert the document; fails when the store is unreachable for puts. -/
def putSiteEntity (st : State) (domain : String) (r : SiteDoc) (now : Nat) :
    Except Unit State :=
  if st.putFail.contains domain then .error ()
  else .ok { st with sites := setEntry st.sites domain { r with Modified := now } }

/-- The remote operations an operation issues, for stating that a call
performs no remote read or write. -/
inductive RemoteOp where
  | get (domain : String)
  | put (domain : String)
deriving DecidableEq, Repr

/-! ## StoreSite -/

/-- Outcome of `StoreSite`. -/
inductive StoreResult where
  | ok
  | storeError
deriving DecidableEq, Repr

/-- `CloudDsStorage.StoreSite`: build a fresh
`cdsEncryptedRecordWithLock` holding the encoded site data (the
`toBytes` output, taken here as the already-encoded argument), with the
`Lock` field explicitly set to the zero value (the Go source comment:
"unset lock with nil value"), and write it with `putSiteEntity`. -/
def StoreSite (st : State) (domain : String) (encoded : List Nat) (now : Nat) :
    StoreResult × State :=
  match putSiteEntity st domain { Value := encoded, Modified := 0, Lock := 0 } now with
  | .error _ => (.storeError, st)
  | .ok st1 => (.ok, st1)

/-! ## TryLock -/

/-- Outcome of `TryLock`: `waiter w` is the `(wg, nil)` return (caller
must wait), `acquired` the `(nil, nil)` return (lock obtained), and
`storeError` the `(nil, err)` return. -/
inductive TryLockResult where
  | waiter (w : Waiter)
  | acquired
  | storeError
deriving DecidableEq, Repr

/-- 30 seconds in nanoseconds: the fixed lease renewal window
`time.Second * 30` added to `time.Now()` on acquisition. -/
def leaseWindow : Nat := 30000000000

/-- The remainder of `TryLock` once the remote document (or the
zero-valued record when the document was absent) is in hand: register a
fresh Local Waiter in `domainLocks`, then either return it (lease still
in the future, background poller started) or extend the lease by the
renewal window and write the document back. -/
def tryLockWithDoc (st : State) (domain : String) (now : Nat) (r : SiteDoc) :
    TryLockResult × State × List RemoteOp :=
  let st1 := { st with domainLocks := setEntry st.domainLocks domain { released := false } }
  if now < r.Lock then
    (.waiter { released := false }, st1, [.get domain])
  else
    match putSiteEntity st1 domain { r with Lock := now + leaseWindow } now with
    | .error _ => (.storeError, st1, [.get domain, .put domain])
    | .ok st2 => (.acquired, st2, [.get domain, .put domain])

/-- `CloudDsStorage.TryLock`: an existing Local Waiter for the domain is
returned immediately with no remote operation; otherwise the site
document is read (tolerating `ErrNoSuchEntity` by continuing with the
zero-valued record, failing on any other read error before any waiter is
registered) and the lock decision proceeds on its `Lock` field. -/
def TryLock (st : State) (domain : String) (now : Nat) :
    TryLockResult × State × List RemoteOp :=
  match st.domainLocks.lookup domain with
  | some wg => (.waiter wg, st, [])
  | none =>
    match getSiteEntity st domain with
    | .error .storeFail => (.storeError, st, [.get domain])
    | .error .noSuchEntity => tryLockWithDoc st domain now zeroDoc
    | .ok r => tryLockWithDoc st domain now r

/-- Release a Local Waiter in place (`wg.Done()` through the pointer the
poll goroutine captured): mark the table's entry for the domain
released, without removing the entry. -/
def releaseWaiter (locks : List (String × Waiter)) (domain : String) :
    List (String × Waiter) :=
  match locks.lookup domain with
  | some _ => setEntry locks domain { released := true }
  | none => locks

/-- One iteration of the background poll loop started by `TryLock` when
the lease was already in the future: re-read the site document; on any
read error release the waiter and end the poll; if the lease is still in
the future keep polling; otherwise release the waiter and end the poll.
The returned `Bool` is `true` when the poll task ends. -/
def pollStep (st : State) (domain : String) (now : Nat) : State × Bool :=
  match getSiteEntity st domain with
  | .error _ => ({ st with domainLocks := releaseWaiter st.domainLocks domain }, true)
  | .ok r =>
    if now < r.Lock then (st, false)
    else ({ st with domainLocks := releaseWaiter st.domainLocks domain }, true)

/-! ## Unlock -/

/-- Outcome of `Unlock`: `ok` for the nil return, `storeError` for a
failed remote read or write-back, `noLocalLock` for the
"no lock to release" error. -/
inductive UnlockResult where
  | ok
  | storeError
  | noLocalLock
deriving DecidableEq, Repr

/-- `CloudDsStorage.Unlock`: read the site document (any read error,
including not-found, is returned as a store error); if the lease is
still in the future defensively clear it to the zero value and write the
document back; then release and remove the domain's Local Waiter,
failing with `noLocalLock` when none is registered. -/
def Unlock (st : State) (domain : String) (now : Nat) : UnlockResult × State :=
  match getSiteEntity st domain with
  | .error _ => (.storeError, st)
  | .ok r =>
    let finish : State → UnlockResult × State := fun st1 =>
      match st1.domainLocks.lookup domain with
      | none => (.noLocalLock, st1)
      | some _ => (.ok, { st1 with domainLocks := delEntry st1.domainLocks domain })
    if now < r.Lock then
      match putSiteEntity st domain { r with Lock := 0 } now with
      | .error _ => (.storeError, st)
      | .ok st1 => finish st1
    else finish st

/-! ## MostRecentUserEmail -/

/-- One observable outcome of `it.Next(nil)` on the keys-only user
query before the iterator is exhausted: a key with the given name, or an
iteration error other than `iterator.Done`. -/
inductive IterStep where
  | okKey (name : String)
  | iterFail
deriving DecidableEq, Repr

/-- The loop body of `MostRecentUserEmail`, over the iterator's
remaining outcomes.  When the outcomes are exhausted, `it.Next` returns
the pair `(nil, iterator.Done)` and the code executes
`email = key.Name` on the nil key: a nil-pointer dereference, modelled
as `none` (the function faults instead of returning).  A non-`Done`
iteration error returns the partial answer accumulated so far. -/
def mostRecentLoop : String → List IterStep → Option String
  | _, [] => none
  | email, .okKey _ :: rest => mostRecentLoop email rest
  | email, .iterFail :: _ => some email

/-- `CloudDsStorage.MostRecentUserEmail`, starting from the empty
partial answer; the argument lists the key outcomes the ordered,
limit-1, keys-only query yields. -/
def MostRecentUserEmail (steps : List IterStep) : Option String :=
  mostRecentLoop "" steps

/-! ## Concrete states for witnesses and counterexamples -/

/-- A store holding a site document for `a.example.com` whose lease is set. -/
def stC1 : State :=
  { sites := [("a.example.com", { Value := [2], Modified := 3, Lock := 100 })]
    domainLocks := []
    getFail := []
    putFail := [] }

/-- A store whose site document for `c.example.com` has an expired lease and
whose local waiter table holds an unreleased waiter for that domain. -/
def stC3 : State :=
  { sites := [("c.example.com", { Value := [1], Modified := 0, Lock := 5 })]
    domainLocks := [("c.example.com", { released := false })]
    getFail := []
    putFail := [] }

/-- A store holding a site document for `d.example.com` with no lease set and
no local waiter. -/
def stC4 : State :=
  { sites := [("d.example.com", { Value := [5], Modified := 3, Lock := 0 })]
    domainLocks := []
    getFail := []
    putFail := [] }

/-- A process state with a registered local waiter for `e.example.com`. -/
def stC5 : State :=
  { sites := []
    domainLocks := [("e.example.com", { released := false })]
    getFail := []
    putFail := [] }

/-- A state where the remote read for `f.example.com` fails and no local
waiter exists. -/
def stC6 : State :=
  { sites := []
    domainLocks := []
    getFail := ["f.example.com"]
    putFail := [] }

/-- A state with neither a site document nor a local waiter for
`g.example.com`. -/
def stC7 : State :=
  { sites := []
    domainLocks := []
    getFail := []
    putFail := [] }

/-- A concrete site record for the codec round-trip witness. -/
def rC8 : SiteData := { Cert := [1, 2], Key := [3], Meta := [] }

/-- A concrete serializer for `SiteData`, injective at `rC8`. -/
def wC8 : Wire SiteData :=
  { marshal := fun s => s.Cert
    unmarshal := fun b => some { Cert := b, Key := [3], Meta := [] } }

/-- A concrete codec with a 32-byte key and a toy authenticated cipher
(16-byte tag, 12-byte nonce) satisfying the GCM open-seal identity. -/
def cC8 : Codec :=
  { aesKey := List.replicate 32 7
    aead :=
      { nonceSize := 12
        sealFn := fun _ p => p ++ List.replicate 16 0
        opn := fun _ cb => some (cb.take (cb.length - 16)) } }

/-- A concrete 12-byte nonce. -/
def nonceC8 : List Nat := List.replicate 12 1

/-- A codec with no key configured (pass-through encryption). -/
def cC9 : Codec :=
  { aesKey := []
    aead := { nonceSize := 0, sealFn := fun _ p => p, opn := fun _ cb => some cb } }

/-- A concrete serializer for `UserData` used by the rejection witness. -/
def wC9 : Wire UserData :=
  { marshal := fun u => u.Reg
    unmarshal := fun _ => some { Reg := [], Key := [] } }

/-- A store holding a site document for `h.example.com` whose lease is still
in the future, with no local waiter. -/
def stC10 : State :=
  { sites := [("h.example.com", { Value := [4], Modified := 2, Lock := 50 })]
    domainLocks := []
    getFail := []
    putFail := [] }

/-! ## Helper lemmas -/

/-- Looking up the key just written by `setEntry` yields the written value. -/
theorem lookup_setEntry {α : Type} (l : List (String × α)) (k : String) (v : α) :
    (setEntry l k v).lookup k = some v := by
  induction l with
  | nil => simp [setEntry]
  | cons p rest ih =>
    obtain ⟨k', v'⟩ := p
    by_cases h : k' = k
    · simp [setEntry, h]
    · have hne : (k == k') = false := by
        simp [Ne.symm h]
      simp [setEntry, h, List.lookup, hne, ih]

/-- `fromBytes` succeeds on any blob whose decryption yields the value marker
followed by a marshalled record that unmarshals back. -/
theorem fromBytes_ok_of_plain {R : Type} (c : Codec) (w : Wire R)
    (bytes : List Nat) (r : R)
    (hd : decrypt c bytes = .ok (valuePfx ++ w.marshal r))
    (hun : w.unmarshal (w.marshal r) = some r) :
    fromBytes c w bytes = .ok r := by
  unfold fromBytes
  rw [hd]
  dsimp only
  have h1 : (valuePfx ++ w.marshal r).take valuePfx.length = valuePfx :=
    List.take_left _ _
  have h2 : (valuePfx ++ w.marshal r).drop valuePfx.length = w.marshal r :=
    List.drop_left _ _
  have h3 : ¬ (valuePfx ++ w.marshal r).length < valuePfx.length := by
    simp [List.length_append]
  have hc : ¬ ((valuePfx ++ w.marshal r).length < valuePfx.length ∨
      (valuePfx ++ w.marshal r).take valuePfx.length ≠ valuePfx) := by
    simp [h1, h3]
  rw [if_neg hc, h2, hun]

/-! ## Claim C1 -/

/-- Claim C1, counterexample: the site document for `a.example.com` carries
lease instant `100`, yet after `StoreSite` writes new certificate data the
stored document's lease is `0`, not the prior `100` — `StoreSite` builds a
fresh record with the lock field explicitly unset and overwrites the document
wholesale, so the existing lease is dropped, contrary to the claim. -/
theorem storeSite_clears_lease_cex :
    stC1.sites.lookup "a.example.com" =
      some { Value := [2], Modified := 3, Lock := 100 } ∧
    ((StoreSite stC1 "a.example.com" [9] 7).2.sites.lookup "a.example.com").map
      SiteDoc.Lock = some 0 ∧
    ¬ ((StoreSite stC1 "a.example.com" [9] 7).2.sites.lookup "a.example.com").map
      SiteDoc.Lock = some 100 := by
  decide

/-- Claim C1 (amended): for every domain with an existing site document,
calling the facade's store-site operation with new certificate data leaves the
Lease field of the stored document equal to the zero value — the existing
lease is overwritten with a zero lease, not preserved. -/
theorem storeSite_zeroes_lease (st : State) (domain : String) (encoded : List Nat)
    (now : Nat) (old : SiteDoc)
    (hex : st.sites.lookup domain = some old)
    (hp : st.putFail.contains domain = false) :
    (StoreSite st domain encoded now).2.sites.lookup domain =
      some { Value := encoded, Modified := now, Lock := 0 } := by
  have hp' : ¬ domain ∈ st.putFail := by simpa using hp
  simp [StoreSite, putSiteEntity, hp', lookup_setEntry]

/-- Claim C1 witness: the amended statement evaluated on the concrete store
`stC1` with its lease-carrying document. -/
theorem storeSite_zeroes_lease_witness :
    stC1.sites.lookup "a.example.com" =
      some { Value := [2], Modified := 3, Lock := 100 } ∧
    stC1.putFail.contains "a.example.com" = false ∧
    (StoreSite stC1 "a.example.com" [9] 7).2.sites.lookup "a.example.com" =
      some { Value := [9], Modified := 7, Lock := 0 } :=
  ⟨by decide, by decide,
    storeSite_zeroes_lease stC1 "a.example.com" [9] 7
      { Value := [2], Modified := 3, Lock := 100 } (by decide) (by decide)⟩

/-! ## Claim C2 -/

/-- Claim C2 (code bug): on an empty user store the keys-only query iterator
immediately reports done together with a nil key, and `MostRecentUserEmail`
then executes `email = key.Name` on that nil key — a nil-pointer dereference
(modelled as `none`) instead of the empty-string return the claim (and the
repository's own `TestMostRecentUserEmail`) requires.  The same fault occurs
after the single yielded key of a non-empty store; only a non-done iteration
error returns the accumulated partial answer. -/
theorem mostRecentUserEmail_faults :
    MostRecentUserEmail [] = none ∧
    MostRecentUserEmail [IterStep.okKey "a@b.example"] = none ∧
    MostRecentUserEmail [IterStep.iterFail] = some "" := by
  decide

/-! ## Claim C3 -/

/-- Claim C3 (code bug): with a registered unreleased waiter for
`c.example.com` and the remote lease instant `5` no longer in the future at
instant `9`, one poll step releases the Local Waiter and ends the poll task,
but the waiter entry remains in the local waiter table (`lookup` still finds
it) — the poll loop never deletes from `domainLocks`, contradicting the
claim's "removes that domain's waiter entry" (and leaving a stale entry that
makes the next `TryLock` return an already-released waiter, which the
repository's own `TestDistributedLockUnlock` would reject). -/
theorem pollStep_leaves_waiter_entry :
    stC3.sites.lookup "c.example.com" =
      some { Value := [1], Modified := 0, Lock := 5 } ∧
    (pollStep stC3 "c.example.com" 9).2 = true ∧
    (pollStep stC3 "c.example.com" 9).1.domainLocks.lookup "c.example.com" =
      some { released := true } ∧
    ¬ (pollStep stC3 "c.example.com" 9).1.domainLocks.lookup "c.example.com" =
      none := by
  decide

/-! ## Claim C4 -/

/-- Claim C4, counterexample: for `d.example.com` with no lease set,
`TryLock` at instant `9` acquires the lock and writes the document back with
the lease at `9 + leaseWindow`, but the written document's `Modified` field is
stamped to `9` by `putSiteEntity` rather than kept at its prior value `3` —
so the write does not preserve all fields other than the lease. -/
theorem tryLock_stamps_modified_cex :
    stC4.sites.lookup "d.example.com" =
      some { Value := [5], Modified := 3, Lock := 0 } ∧
    (TryLock stC4 "d.example.com" 9).1 = TryLockResult.acquired ∧
    ((TryLock stC4 "d.example.com" 9).2.1.sites.lookup "d.example.com").map
      SiteDoc.Modified = some 9 ∧
    ¬ ((TryLock stC4 "d.example.com" 9).2.1.sites.lookup "d.example.com").map
      SiteDoc.Modified = some 3 := by
  decide

/-- Claim C4 (amended): for every domain whose site document has a lease that
is absent (document missing, read as the zero record) or already in the past,
and with no local waiter registered, `tryLock` sets the lease to now plus the
fixed 30-second renewal window and writes the document back preserving the
certificate payload (`Value`) while stamping the modification time to now, and
returns lock-acquired with no waiter handle. -/
theorem tryLock_acquires (st : State) (domain : String) (now : Nat) (r : SiteDoc)
    (hw : st.domainLocks.lookup domain = none)
    (hg : getSiteEntity st domain = .ok r ∨
      (getSiteEntity st domain = .error .noSuchEntity ∧ r = zeroDoc))
    (hl : ¬ now < r.Lock)
    (hp : st.putFail.contains domain = false) :
    (TryLock st domain now).1 = TryLockResult.acquired ∧
    (TryLock st domain now).2.1.sites.lookup domain =
      some { Value := r.Value, Modified := now, Lock := now + leaseWindow } := by
  have hp' : ¬ domain ∈ st.putFail := by simpa using hp
  rcases hg with hg | ⟨hg, hr⟩
  · simp [TryLock, hw, hg, tryLockWithDoc, hl, putSiteEntity, hp', lookup_setEntry]
  · subst hr
    simp [TryLock, hw, hg, tryLockWithDoc, hl, putSiteEntity, hp', lookup_setEntry,
      zeroDoc]

/-- Claim C4 witness: the amended statement on the concrete store `stC4`. -/
theorem tryLock_acquires_witness :
    stC4.domainLocks.lookup "d.example.com" = none ∧
    getSiteEntity stC4 "d.example.com" =
      Except.ok { Value := [5], Modified := 3, Lock := 0 } ∧
    ¬ (9 < SiteDoc.Lock { Value := [5], Modified := 3, Lock := 0 }) ∧
    stC4.putFail.contains "d.example.com" = false ∧
    ((TryLock stC4 "d.example.com" 9).1 = TryLockResult.acquired ∧
      (TryLock stC4 "d.example.com" 9).2.1.sites.lookup "d.example.com" =
        some { Value := [5], Modified := 9, Lock := 9 + leaseWindow }) :=
  ⟨by decide, rfl, by decide, by decide,
    tryLock_acquires stC4 "d.example.com" 9 { Value := [5], Modified := 3, Lock := 0 }
      (by decide) (Or.inl rfl) (by decide) (by decide)⟩

/-! ## Claim C5 -/

/-- Claim C5 (confirmed): a `tryLock` call for a domain that already has a
registered Local Waiter in this process returns that existing waiter
immediately, leaves the whole state (including the waiter table, so still
exactly one entry for the domain) unchanged, and issues no remote read or
write (empty remote-operation trace). -/
theorem tryLock_existing_waiter (st : State) (domain : String) (now : Nat)
    (w : Waiter) (h : st.domainLocks.lookup domain = some w) :
    TryLock st domain now = (TryLockResult.waiter w, st, []) := by
  simp [TryLock, h]

/-- Claim C5 witness: the statement on the concrete process state `stC5`. -/
theorem tryLock_existing_waiter_witness :
    stC5.domainLocks.lookup "e.example.com" = some { released := false } ∧
    TryLock stC5 "e.example.com" 5 =
      (TryLockResult.waiter { released := false }, stC5, []) :=
  ⟨by decide,
    tryLock_existing_waiter stC5 "e.example.com" 5 { released := false } (by decide)⟩

/-! ## Claim C6 -/

/-- Claim C6 (confirmed): when no Local Waiter is registered and the initial
remote read of the site document fails for a reason other than not-found,
`tryLock` returns the store-unavailable error with the state unchanged — in
particular no Local Waiter is created for the domain. -/
theorem tryLock_store_unavailable (st : State) (domain : String) (now : Nat)
    (hw : st.domainLocks.lookup domain = none)
    (hg : st.getFail.contains domain = true) :
    TryLock st domain now = (TryLockResult.storeError, st, [RemoteOp.get domain]) := by
  have hg' : domain ∈ st.getFail := by simpa using hg
  simp [TryLock, hw, getSiteEntity, hg']

/-- Claim C6 witness: the statement on the concrete state `stC6` whose remote
read for `f.example.com` fails. -/
theorem tryLock_store_unavailable_witness :
    stC6.domainLocks.lookup "f.example.com" = none ∧
    stC6.getFail.contains "f.example.com" = true ∧
    TryLock stC6 "f.example.com" 5 =
      (TryLockResult.storeError, stC6, [RemoteOp.get "f.example.com"]) :=
  ⟨by decide, by decide,
    tryLock_store_unavailable stC6 "f.example.com" 5 (by decide) (by decide)⟩

/-! ## Claim C7 -/

/-- Claim C7, counterexample: for `g.example.com` with no Local Waiter and no
remote site document, `unlock` fails with the store error wrapping the failed
remote read ("Unable to obtain site data"), not with the no-local-lock error —
the remote read precedes the waiter check, so the claim's universally
quantified "fails with a NoLocalLock error" does not hold. -/
theorem unlock_absent_doc_cex :
    stC7.domainLocks.lookup "g.example.com" = none ∧
    stC7.sites.lookup "g.example.com" = none ∧
    (Unlock stC7 "g.example.com" 9).1 = UnlockResult.storeError ∧
    ¬ (Unlock stC7 "g.example.com" 9).1 = UnlockResult.noLocalLock := by
  decide

/-- Claim C7 (amended): for every domain with no Local Waiter registered in
this process's waiter table, `unlock` never succeeds as a no-op: it fails with
the NoLocalLock error whenever the remote read of the site document succeeds
(and, when the lease is still in the future, the defensive write-back
succeeds), and with a store error otherwise. -/
theorem unlock_no_waiter_fails (st : State) (domain : String) (now : Nat)
    (hw : st.domainLocks.lookup domain = none) :
    ¬ (Unlock st domain now).1 = UnlockResult.ok ∧
    (∀ r, getSiteEntity st domain = .ok r → ¬ now < r.Lock →
      (Unlock st domain now).1 = UnlockResult.noLocalLock) ∧
    (∀ r, getSiteEntity st domain = .ok r → now < r.Lock →
      st.putFail.contains domain = false →
      (Unlock st domain now).1 = UnlockResult.noLocalLock) := by
  refine ⟨?_, ?_, ?_⟩
  · cases hget : getSiteEntity st domain with
    | error e => simp [Unlock, hget]
    | ok r =>
      by_cases hlk : now < r.Lock
      · by_cases hpf : domain ∈ st.putFail
        · simp [Unlock, hget, hlk, putSiteEntity, hpf]
        · simp [Unlock, hget, hlk, putSiteEntity, hpf, hw]
      · simp [Unlock, hget, hlk, hw]
  · intro r hget hlk
    simp [Unlock, hget, hlk, hw]
  · intro r hget hlk hpf
    have hpf' : ¬ domain ∈ st.putFail := by simpa using hpf
    simp [Unlock, hget, hlk, putSiteEntity, hpf', hw]

/-- Claim C7 witness: the amended statement on the concrete state `stC7`. -/
theorem unlock_no_waiter_fails_witness :
    stC7.domainLocks.lookup "g.example.com" = none ∧
    (¬ (Unlock stC7 "g.example.com" 9).1 = UnlockResult.ok ∧
      (∀ r, getSiteEntity stC7 "g.example.com" = .ok r → ¬ 9 < r.Lock →
        (Unlock stC7 "g.example.com" 9).1 = UnlockResult.noLocalLock) ∧
      (∀ r, getSiteEntity stC7 "g.example.com" = .ok r → 9 < r.Lock →
        stC7.putFail.contains "g.example.com" = false →
        (Unlock stC7 "g.example.com" 9).1 = UnlockResult.noLocalLock)) :=
  ⟨by decide, unlock_no_waiter_fails stC7 "g.example.com" 9 (by decide)⟩

/-! ## Claim C8 -/

/-- Claim C8 (confirmed): decoding the blob produced by encoding a record
round-trips to the same record, for any configured key (empty key: plain
pass-through; non-empty key: authenticated encryption), given the properties
the Go standard library guarantees — the serializer unmarshals what it
marshalled, the nonce has the cipher's nonce size, the sealed blob is at
least one AES block long (GCM: nonce plus ciphertext plus tag), and opening a
sealed buffer with its own nonce returns the plaintext. -/
theorem fromBytes_toBytes_roundtrip {R : Type} (c : Codec) (w : Wire R)
    (nonce : List Nat) (r : R)
    (hun : w.unmarshal (w.marshal r) = some r)
    (hnl : nonce.length = c.aead.nonceSize)
    (hlen : aesBlockSize ≤ (nonce ++ c.aead.sealFn nonce (valuePfx ++ w.marshal r)).length)
    (hop : c.aead.opn nonce (c.aead.sealFn nonce (valuePfx ++ w.marshal r)) =
      some (valuePfx ++ w.marshal r)) :
    fromBytes c w (toBytes c w nonce r) = .ok r := by
  apply fromBytes_ok_of_plain c w _ r _ hun
  unfold toBytes encrypt decrypt
  by_cases hk : c.aesKey.length = 0
  · simp [hk]
  · rw [if_neg hk, if_neg hk, if_neg (Nat.not_lt.mpr hlen)]
    rw [← hnl, List.take_left, List.drop_left, hop]

/-- Claim C8 witness: the round-trip evaluated on the concrete record `rC8`
under the keyed codec `cC8` with nonce `nonceC8`. -/
theorem fromBytes_toBytes_roundtrip_witness :
    wC8.unmarshal (wC8.marshal rC8) = some rC8 ∧
    nonceC8.length = cC8.aead.nonceSize ∧
    aesBlockSize ≤ (nonceC8 ++ cC8.aead.sealFn nonceC8 (valuePfx ++ wC8.marshal rC8)).length ∧
    cC8.aead.opn nonceC8 (cC8.aead.sealFn nonceC8 (valuePfx ++ wC8.marshal rC8)) =
      some (valuePfx ++ wC8.marshal rC8) ∧
    fromBytes cC8 wC8 (toBytes cC8 wC8 nonceC8 rC8) = .ok rC8 :=
  ⟨by decide, by decide, by decide, by decide,
    fromBytes_toBytes_roundtrip cC8 wC8 nonceC8 rC8
      (by decide) (by decide) (by decide) (by decide)⟩

/-! ## Claim C9 -/

/-- Claim C9 (confirmed): any blob whose decrypted (or, with no key, raw)
content does not begin with the exact literal value marker, or whose remainder
does not unmarshal as the expected record shape, is rejected by `fromBytes`
with the format error — such a blob is never accepted. -/
theorem fromBytes_rejects_malformed {R : Type} (c : Codec) (w : Wire R)
    (blob plain : List Nat)
    (hd : decrypt c blob = .ok plain)
    (hbad : plain.take valuePfx.length ≠ valuePfx ∨
      w.unmarshal (plain.drop valuePfx.length) = none) :
    fromBytes c w blob = .error CodecErr.formatError := by
  unfold fromBytes
  rw [hd]
  dsimp only
  rcases hbad with hb | hum
  · rw [if_pos (Or.inr hb)]
  · by_cases hlt : plain.length < valuePfx.length ∨
        plain.take valuePfx.length ≠ valuePfx
    · rw [if_pos hlt]
    · rw [if_neg hlt, hum]

/-- Claim C9 witness: the keyless codec `cC9` rejects the three-byte blob
`[1, 2, 3]`, which does not begin with the value marker. -/
theorem fromBytes_rejects_malformed_witness :
    decrypt cC9 [1, 2, 3] = .ok [1, 2, 3] ∧
    (([1, 2, 3] : List Nat).take valuePfx.length ≠ valuePfx ∨
      wC9.unmarshal (([1, 2, 3] : List Nat).drop valuePfx.length) = none) ∧
    fromBytes cC9 wC9 [1, 2, 3] = .error CodecErr.formatError :=
  ⟨rfl, Or.inl (by decide),
    fromBytes_rejects_malformed cC9 wC9 [1, 2, 3] [1, 2, 3] rfl (Or.inl (by decide))⟩

/-! ## Claim C10 -/

/-- Claim C10 (confirmed): when `unlock` is called for a domain with no Local
Waiter but whose remote site document carries a lease still in the future, it
clears the remote lease to the zero value and writes the document back
(stamping the modification time) before returning the no-local-lock error —
the error return does not leave the remote state unchanged. -/
theorem unlock_defensive_clear (st : State) (domain : String) (now : Nat)
    (r : SiteDoc)
    (hw : st.domainLocks.lookup domain = none)
    (hg : getSiteEntity st domain = .ok r)
    (hl : now < r.Lock)
    (hp : st.putFail.contains domain = false) :
    (Unlock st domain now).1 = UnlockResult.noLocalLock ∧
    (Unlock st domain now).2.sites.lookup domain =
      some { Value := r.Value, Modified := now, Lock := 0 } := by
  have hp' : ¬ domain ∈ st.putFail := by simpa using hp
  simp [Unlock, hg, hl, putSiteEntity, hp', hw, lookup_setEntry]

/-- Claim C10 witness: the statement on the concrete state `stC10`, whose
document for `h.example.com` carries lease instant `50`, unlocked at
instant `7`. -/
theorem unlock_defensive_clear_witness :
    stC10.domainLocks.lookup "h.example.com" = none ∧
    getSiteEntity stC10 "h.example.com" =
      Except.ok { Value := [4], Modified := 2, Lock := 50 } ∧
    (7 < SiteDoc.Lock { Value := [4], Modified := 2, Lock := 50 }) ∧
    stC10.putFail.contains "h.example.com" = false ∧
    ((Unlock stC10 "h.example.com" 7).1 = UnlockResult.noLocalLock ∧
      (Unlock stC10 "h.example.com" 7).2.sites.lookup "h.example.com" =
        some { Value := [4], Modified := 7, Lock := 0 }) :=
  ⟨by decide, rfl, by decide, by decide,
    unlock_defensive_clear stC10 "h.example.com" 7
      { Value := [4], Modified := 2, Lock := 50 } (by decide) rfl (by decide) (by decide)⟩
